import Mathlib

/-!
Verification of the FreeRTOS producer/consumer demo (`Week3 - Example01/src/main.c`,
Hoog-V/MIC5). The application logic in `main.c` (task bodies, serial formatting,
queue/task creation) is embedded shallowly below. The FreeRTOS queue primitive and
the fixed-priority scheduler are external to the source tree; where a property
depends on them, the definitions are modelled from their documented contract and
marked as such in their doc comments.
-/

namespace MIC5

/-! ## Decimal rendering (model of the C library integer conversion) -/

/-- Fuel-driven accumulator loop producing the decimal digits of `n` (most
significant digit first), as the C library integer conversion does. The first
argument is fuel; fuel `n` is always sufficient because the argument is divided
by 10 at every step. -/
def toDecCore : Nat → Nat → List Char → List Char
  | 0, _, acc => acc
  | fuel + 1, n, acc =>
    if n = 0 then acc else toDecCore fuel (n / 10) (Nat.digitChar (n % 10) :: acc)

/-- Decimal representation of a natural number as a character list. -/
def decStrL (n : Nat) : List Char :=
  if n = 0 then ['0'] else toDecCore n n []

/-- Decimal representation of an integer as a character list: a minus sign
followed by the digits for negative values, the plain digits otherwise. -/
def intDecStrL (v : Int) : List Char :=
  if v < 0 then '-' :: decStrL (-v).toNat else decStrL v.toNat

/-- Right-justify a character list in a field of width `w`, padding with
spaces on the left. -/
def padLeftL (w : Nat) (s : List Char) : List Char :=
  List.replicate (w - s.length) ' ' ++ s

/-- Model of the C conversion specification `% 4ld` used at `main.c:189`: the
space flag prefixes one space when no minus sign is produced, and the whole is
right-justified in a minimum field width of 4. -/
def fmtSpace4L (v : Int) : List Char :=
  padLeftL 4 (if v < 0 then intDecStrL v else ' ' :: intDecStrL v)

/-- Second reading, taken from the spec text, for comparison: the conversion
`%4d`, plain right-justification in a minimum field width of 4 with no space
flag. -/
def specFmt4L (v : Int) : List Char :=
  padLeftL 4 (intDecStrL v)

/-- The characters `sprintf(str, "Received = % 4ld\r\n", v)` writes (terminating
NUL excluded), from `main.c:189`. -/
def receivedLineL (v : Int) : List Char :=
  "Received = ".data ++ fmtSpace4L v ++ "\r\n".data

/-- The line the receiver emits for a successfully received value `v`. -/
def receivedLineStr (v : Int) : String :=
  String.mk (receivedLineL v)

/-- The line the spec claims for a successfully received value `v`: the value
rendered with `%4d`. -/
def specReceivedLine4d (v : Int) : String :=
  String.mk ("Received = ".data ++ specFmt4L v ++ "\r\n".data)

/-- Number of bytes `sprintf` stores for value `v`: the formatted characters
plus the terminating NUL. -/
def sprintfBytesWritten (v : Int) : Nat :=
  (receivedLineL v).length + 1

/-- The declared size of the receiver's local buffer `char str[16]`
(`main.c:188`). -/
def strBufSize : Nat := 16

/-! ## Fixed serial messages of `main.c` -/

/-- Producer diagnostic on a failed send (`main.c:145`). -/
def sendFailMsg : String := "Could not send to the queue.\r\n"

/-- Consumer diagnostic on observing a non-empty queue (`main.c:166`). -/
def qNotEmptyMsg : String := "Queue should have been empty!\r\n"

/-- Consumer diagnostic on a receive timeout (`main.c:197`). -/
def recvFailMsg : String := "Could not receive from the queue.\r\n"

/-- First banner line printed by `main` (`main.c:66`). -/
def banner1 : String := "\r\nFRDM-KL25Z FreeRTOS demo Week 3 - Example 01\r\n"

/-- Second banner line printed by `main` (`main.c:67`). -/
def banner2 : String := "By Hugo Arends\r\n\r\n"

/-! ## Bounded queue (FreeRTOS primitive, not in the source tree) -/

/-- Capacity passed to `xQueueCreate` at `main.c:71`. -/
def queueCapacity : Nat := 5

/-- Modelled from the spec: the FreeRTOS bounded FIFO send operation,
`send(value, waitTicks) -> success|full` with at-most-capacity occupancy;
appends to the back when space is available, otherwise fails and leaves the
queue unchanged. The application only calls it with `waitTicks = 0`
(non-blocking), which is the semantics modelled here. -/
def xQueueSendToBack (q : List Int) (v : Int) : List Int × Bool :=
  if q.length < queueCapacity then (q ++ [v], true) else (q, false)

/-- Modelled from the spec: the FreeRTOS bounded FIFO receive operation takes
the front element when one is present. The timeout path is resolved by the
caller's arrival oracle. -/
def xQueueReceive (q : List Int) : List Int × Option Int :=
  match q with
  | [] => ([], none)
  | x :: xs => (xs, some x)

/-- Modelled from the spec: `occupancy() -> count`, the number of buffered
elements. -/
def uxQueueMessagesWaiting (q : List Int) : Nat := q.length

/-! ## Task loop bodies -/

/-- Observable actions one loop iteration of a task performs, in order. -/
inductive Ev where
  | delayMs (ms : Nat)
  | sendToBack (v : Int) (waitTicks : Nat) (success : Bool)
  | msgsWaiting (count : Nat)
  | receive (timeoutMs : Nat) (result : Option Int)
  | putString (s : String)
  deriving DecidableEq, Repr

/-- One iteration of the producer loop `vSenderTask` (`main.c:119-147`): delay
50 ms, then attempt a zero-wait send of the constant `lValueToSend`; emit
`sendFailMsg` exactly when the send fails. Returns the emitted event trace and
the queue after the iteration. -/
def senderIter (lValueToSend : Int) (q : List Int) : List Ev × List Int :=
  let r := xQueueSendToBack q lValueToSend
  ([Ev.delayMs 50, Ev.sendToBack lValueToSend 0 r.2] ++
    (if r.2 then [] else [Ev.putString sendFailMsg]), r.1)

/-- Iterating the producer loop `n` times from queue state `q`. -/
def senderRun (lValueToSend : Int) : Nat → List Int → List Ev × List Int
  | 0, q => ([], q)
  | n + 1, q =>
    let r := senderIter lValueToSend q
    let r2 := senderRun lValueToSend n r.2
    (r.1 ++ r2.1, r2.2)

/-- One iteration of the consumer loop `vReceiverTask` (`main.c:160-199`):
read the occupancy, emit `qNotEmptyMsg` when it is non-zero, then receive with
a 100 ms timeout. `arrival` is the value, if any, that a producer enqueues
during the blocking wait when the queue is empty at the call; on success the
received value is formatted and emitted, on timeout `recvFailMsg` is emitted.
Returns the emitted event trace and the queue after the iteration. -/
def receiverIter (q : List Int) (arrival : Option Int) : List Ev × List Int :=
  let pre : List Ev :=
    Ev.msgsWaiting (uxQueueMessagesWaiting q) ::
      (if uxQueueMessagesWaiting q ≠ 0 then [Ev.putString qNotEmptyMsg] else [])
  match q with
  | x :: xs =>
      (pre ++ [Ev.receive 100 (some x), Ev.putString (receivedLineStr x)], xs)
  | [] =>
      match arrival with
      | some v =>
          (pre ++ [Ev.receive 100 (some v), Ev.putString (receivedLineStr v)], [])
      | none =>
          (pre ++ [Ev.receive 100 none, Ev.putString recvFailMsg], [])

/-! ## The entry routine `main` -/

/-- Observable actions of `main` (`main.c:61-103`), in order. -/
inductive MainEv where
  | rgbInit
  | serialPortInit (baud : Nat) (txBufSize : Nat)
  | putString (s : String)
  | queueCreate (capacity : Nat) (elemSize : Nat)
  | addToRegistry (nm : String)
  | taskCreate (nm : String) (param : Option Int) (prio : Nat)
  | startScheduler
  | haltLoop
  deriving DecidableEq, Repr

/-- The straight-line action trace of `main` (`main.c:61-103`), parameterised
by whether `xQueueCreate` succeeds. `queueCreate 5 4` records capacity 5 and
element size `sizeof(int32_t) = 4`; `haltLoop` is the final `for(;;);`. -/
def mainTrace (createOk : Bool) : List MainEv :=
  [MainEv.rgbInit, MainEv.serialPortInit 921600 128,
   MainEv.putString banner1, MainEv.putString banner2,
   MainEv.queueCreate 5 4] ++
  (if createOk then
    [MainEv.addToRegistry "xQueue",
     MainEv.taskCreate "Sender1" (some 100) 1,
     MainEv.taskCreate "Sender2" (some 200) 1,
     MainEv.taskCreate "Receiver" none 2,
     MainEv.startScheduler]
   else []) ++ [MainEv.haltLoop]

/-- Recognises a queue-creation action. -/
def isQueueCreate : MainEv → Bool
  | MainEv.queueCreate _ _ => true
  | _ => false

/-- Recognises a task-creation action. -/
def isTaskCreate : MainEv → Bool
  | MainEv.taskCreate _ _ _ => true
  | _ => false

/-- Recognises the scheduler-start action. -/
def isStartScheduler : MainEv → Bool
  | MainEv.startScheduler => true
  | _ => false

/-! ## Queue occupancy under arbitrary interleaving -/

/-- One scheduling step: some task completes one loop iteration against the
queue — either producer (tags 100 and 200, from `main.c:82-83`) or the
consumer with an arbitrary arrival oracle. -/
inductive QStep : List Int → List Int → Prop where
  | send1 (q : List Int) : QStep q (senderIter 100 q).2
  | send2 (q : List Int) : QStep q (senderIter 200 q).2
  | recv (q : List Int) (a : Option Int) : QStep q (receiverIter q a).2

/-- Queue states reachable from the initial empty queue by any interleaving of
the three task loops. -/
inductive ReachableQ : List Int → Prop where
  | init : ReachableQ []
  | step {q q' : List Int} : ReachableQ q → QStep q q' → ReachableQ q'

/-! ## Fixed-priority scheduling (FreeRTOS primitive, not in the source tree) -/

/-- The three tasks created by `main` (`main.c:82-87`). -/
inductive TaskId where
  | sender1
  | sender2
  | receiver
  deriving DecidableEq, Repr

/-- The priority each task is created with (`main.c:82-87`): both producers at
1, the consumer at 2. -/
def taskPriority : TaskId → Nat
  | TaskId.sender1 => 1
  | TaskId.sender2 => 1
  | TaskId.receiver => 2

/-- Modelled from the spec: one comparison step of the fixed-priority
scheduler, keeping whichever candidate has the higher priority (the incumbent
on ties). -/
def pickBetter (best : Option TaskId) (t : TaskId) : Option TaskId :=
  match best with
  | none => some t
  | some b => if taskPriority b < taskPriority t then some t else some b

/-- Modelled from the spec: the fixed-priority preemptive scheduler always
runs the highest-priority ready task; `pickHighest ready` is the task chosen
from the ready set. -/
def pickHighest (ready : List TaskId) : Option TaskId :=
  ready.foldl pickBetter none

/-! ## Helper lemmas -/

theorem toDecCore_length (fuel : Nat) :
    ∀ (n : Nat) (acc : List Char) (k : Nat), n < 10 ^ k →
      (toDecCore fuel n acc).length ≤ k + acc.length := by
  induction fuel with
  | zero =>
    intro n acc k _
    simp [toDecCore]
  | succ fuel ih =>
    intro n acc k hn
    by_cases h0 : n = 0
    · simp [toDecCore, h0]
    · cases k with
      | zero =>
        exfalso
        simp at hn
        omega
      | succ k' =>
        have hdiv : n / 10 < 10 ^ k' := by
          rw [Nat.div_lt_iff_lt_mul (by norm_num : (0 : Nat) < 10)]
          calc n < 10 ^ (k' + 1) := hn
            _ = 10 ^ k' * 10 := by ring
        have h := ih (n / 10) (Nat.digitChar (n % 10) :: acc) k' hdiv
        simp only [toDecCore, h0, if_false, List.length_cons] at h ⊢
        omega

theorem decStrL_length_le (n : Nat) (h : n ≤ 999) : (decStrL n).length ≤ 3 := by
  unfold decStrL
  by_cases h0 : n = 0
  · simp [h0]
  · simp only [h0, if_false]
    have h10 : (10 : Nat) ^ 3 = 1000 := by norm_num
    have := toDecCore_length n n [] 3 (by omega)
    simpa using this

theorem padLeftL_space_cons {d : List Char} (h : d.length ≤ 3) :
    padLeftL 4 (' ' :: d) = padLeftL 4 d := by
  unfold padLeftL
  have h1 : 4 - (' ' :: d).length = 3 - d.length := by
    simp only [List.length_cons]
    omega
  have h2 : 4 - d.length = (3 - d.length) + 1 := by omega
  rw [h1, h2, List.replicate_succ', List.append_assoc]
  simp

theorem receivedLineL_head (v : Int) :
    receivedLineL v = 'R' :: ("eceived = ".data ++ (fmtSpace4L v ++ "\r\n".data)) := by
  have h : "Received = ".data = 'R' :: "eceived = ".data := rfl
  rw [receivedLineL, h]
  simp

theorem receivedLineStr_ne_qNotEmptyMsg (v : Int) : receivedLineStr v ≠ qNotEmptyMsg := by
  intro h
  have hd : receivedLineL v = qNotEmptyMsg.data := by
    have := congrArg String.data h
    exact this
  rw [receivedLineL_head] at hd
  have hq : qNotEmptyMsg.data = 'Q' :: "ueue should have been empty!\r\n".data := rfl
  rw [hq] at hd
  injection hd with h1 _
  exact absurd h1 (by decide)

theorem receivedLineStr_ne_recvFailMsg (v : Int) : receivedLineStr v ≠ recvFailMsg := by
  intro h
  have hd : receivedLineL v = recvFailMsg.data := by
    have := congrArg String.data h
    exact this
  rw [receivedLineL_head] at hd
  have hc : recvFailMsg.data = 'C' :: "ould not receive from the queue.\r\n".data := rfl
  rw [hc] at hd
  injection hd with h1 _
  exact absurd h1 (by decide)

theorem senderIter_queue_length (tag : Int) (q : List Int)
    (h : q.length ≤ queueCapacity) : (senderIter tag q).2.length ≤ queueCapacity := by
  by_cases hlt : q.length < queueCapacity
  · simp [senderIter, xQueueSendToBack, hlt]
    omega
  · simp [senderIter, xQueueSendToBack, hlt]
    omega

theorem receiverIter_queue_length (q : List Int) (a : Option Int)
    (h : q.length ≤ queueCapacity) : (receiverIter q a).2.length ≤ queueCapacity := by
  rcases q with _ | ⟨x, xs⟩
  · rcases a with _ | v <;> simp [receiverIter]
  · simp only [receiverIter]
    simp at h ⊢
    omega

theorem senderRun_sends (tag : Int) :
    ∀ (n : Nat) (q : List Int) (v : Int) (w : Nat) (s : Bool),
      Ev.sendToBack v w s ∈ (senderRun tag n q).1 → v = tag := by
  intro n
  induction n with
  | zero =>
    intro q v w s h
    simp [senderRun] at h
  | succ n ih =>
    intro q v w s h
    simp only [senderRun, List.mem_append] at h
    rcases h with h | h
    · by_cases hlt : q.length < queueCapacity <;>
        simp [senderIter, xQueueSendToBack, hlt] at h <;> tauto
    · exact ih _ v w s h

theorem pickHighest_receiver_mem :
    ∀ (l : List TaskId) (acc : Option TaskId),
      (TaskId.receiver ∈ l ∨ acc = some TaskId.receiver) →
      l.foldl pickBetter acc = some TaskId.receiver := by
  intro l
  induction l with
  | nil =>
    intro acc h
    rcases h with h | h
    · simp at h
    · simpa using h
  | cons t ts ih =>
    intro acc h
    rw [List.foldl_cons]
    rcases h with h | h
    · rcases List.mem_cons.mp h with rfl | hmem
      · apply ih
        right
        cases acc with
        | none => rfl
        | some b => cases b <;> rfl
      · exact ih _ (Or.inl hmem)
    · subst h
      apply ih
      right
      cases t <;> rfl

/-! ## Claim theorems -/

/-- C4: the application creates exactly one queue, created before any task is
created and before the scheduler starts, with capacity 5 elements of size
4 bytes each (`int32_t`) — whether or not the creation succeeds, the trace of
`main` contains exactly one queue creation, and no task creation or scheduler
start precedes it. -/
theorem queue_created_once_before_tasks :
    ∀ createOk : Bool,
      (mainTrace createOk).filter isQueueCreate = [MainEv.queueCreate 5 4] ∧
      ((mainTrace createOk).takeWhile (fun e => !isQueueCreate e)).all
        (fun e => !isTaskCreate e && !isStartScheduler e) = true := by
  decide

/-- C5: when `xQueueCreate` returns null, `main` spawns no tasks, never starts
the scheduler, and its trace ends in the halt loop `for(;;);`. -/
theorem queue_create_fail_halts :
    mainTrace false =
      [MainEv.rgbInit, MainEv.serialPortInit 921600 128,
       MainEv.putString banner1, MainEv.putString banner2,
       MainEv.queueCreate 5 4, MainEv.haltLoop] ∧
    (mainTrace false).all (fun e => !isTaskCreate e && !isStartScheduler e) = true ∧
    (mainTrace false).getLast? = some MainEv.haltLoop := by
  decide

/-- C8: before creating the queue, `main` initializes the serial port at baud
rate 921600 with a 128-byte transmit buffer and emits exactly the two banner
lines, in that order: the trace up to and including the queue creation is
exactly board init, serial init, the two banners, then the creation. -/
theorem serial_init_and_banners_before_queue :
    ∀ createOk : Bool,
      (mainTrace createOk).take 5 =
        [MainEv.rgbInit, MainEv.serialPortInit 921600 128,
         MainEv.putString "\r\nFRDM-KL25Z FreeRTOS demo Week 3 - Example 01\r\n",
         MainEv.putString "By Hugo Arends\r\n\r\n",
         MainEv.queueCreate 5 4] := by
  decide

/-- C3 (counterexample): the claim that the receive line renders the value
with a format equivalent to plain `%4d` fails at the value 1000 — the program
formats with `"% 4ld"` (space flag), producing a leading space that `%4d`
does not produce once the value has four or more digits. -/
theorem received_format_counterexample :
    receivedLineStr 1000 = "Received =  1000\r\n" ∧
    specReceivedLine4d 1000 = "Received = 1000\r\n" ∧
    receivedLineStr 1000 ≠ specReceivedLine4d 1000 := by
  decide

/-- C3 (amended): for every received value the emitted line is
`"Received = <value>\r\n"` with the value rendered by C's `"% 4ld"` (space
flag, minimum field width 4); this coincides with `%4d` whenever the value is
negative or at most 999 — which covers both values the producers ever send —
and in particular receiving 100 emits exactly `"Received =  100\r\n"`. -/
theorem received_line_spec :
    (∀ v : Int, v < 0 ∨ v ≤ 999 → receivedLineStr v = specReceivedLine4d v) ∧
    receivedLineStr 100 = "Received =  100\r\n" ∧
    receivedLineStr 200 = "Received =  200\r\n" := by
  refine ⟨?_, by decide, by decide⟩
  intro v hv
  unfold receivedLineStr specReceivedLine4d receivedLineL
  by_cases hneg : v < 0
  · simp [fmtSpace4L, specFmt4L, hneg]
  · have hv9 : v ≤ 999 := hv.resolve_left hneg
    have hlen : (intDecStrL v).length ≤ 3 := by
      unfold intDecStrL
      simp only [hneg, if_false]
      exact decStrL_length_le _ (by omega)
    simp only [fmtSpace4L, specFmt4L, hneg, if_false]
    rw [padLeftL_space_cons hlen]

/-- Witness for the amended C3 theorem at the concrete value 100. -/
theorem received_line_spec_witness :
    ((100 : Int) < 0 ∨ (100 : Int) ≤ 999) ∧
    receivedLineStr 100 = specReceivedLine4d 100 :=
  ⟨Or.inr (by norm_num), received_line_spec.1 100 (Or.inr (by norm_num))⟩

/-- C1: every consumer iteration first reads the queue occupancy and emits
`"Queue should have been empty!\r\n"` exactly when it is non-zero, then
receives with a 100 ms timeout; on success it emits the formatted value, and
on timeout it emits `"Could not receive from the queue.\r\n"` — spelled out by
the emptiness diagnostic iff, the timeout diagnostic iff, and the full event
trace in each of the three cases. -/
theorem vReceiverTask_iter_spec (q : List Int) (a : Option Int) :
    ((Ev.putString qNotEmptyMsg ∈ (receiverIter q a).1) ↔ uxQueueMessagesWaiting q ≠ 0) ∧
    ((Ev.putString recvFailMsg ∈ (receiverIter q a).1) ↔ (q = [] ∧ a = none)) ∧
    (∀ x xs, q = x :: xs →
      receiverIter q a =
        ([Ev.msgsWaiting (xs.length + 1), Ev.putString qNotEmptyMsg,
          Ev.receive 100 (some x), Ev.putString (receivedLineStr x)], xs)) ∧
    (∀ v, q = [] → a = some v →
      receiverIter q a =
        ([Ev.msgsWaiting 0, Ev.receive 100 (some v),
          Ev.putString (receivedLineStr v)], [])) ∧
    (q = [] → a = none →
      receiverIter q a =
        ([Ev.msgsWaiting 0, Ev.receive 100 none, Ev.putString recvFailMsg], [])) := by
  rcases q with _ | ⟨x, xs⟩
  · rcases a with _ | v
    · simp [receiverIter, uxQueueMessagesWaiting]
      decide
    · simp [receiverIter, uxQueueMessagesWaiting]
      exact ⟨fun h => receivedLineStr_ne_qNotEmptyMsg v h.symm,
        fun h => receivedLineStr_ne_recvFailMsg v h.symm⟩
  · simp [receiverIter, uxQueueMessagesWaiting]
    exact ⟨by decide, fun h => receivedLineStr_ne_recvFailMsg x h.symm⟩

/-- Witness for the C1 theorem: the consumer finding the single value 100
already buffered emits the emptiness diagnostic and then the formatted
value. -/
theorem vReceiverTask_iter_spec_witness :
    ([(100 : Int)] : List Int) = 100 :: [] ∧
    receiverIter [100] none =
      ([Ev.msgsWaiting 1, Ev.putString qNotEmptyMsg, Ev.receive 100 (some 100),
        Ev.putString (receivedLineStr 100)], []) :=
  ⟨rfl, (vReceiverTask_iter_spec [100] none).2.2.1 100 [] rfl⟩

/-- C2: every producer iteration first delays 50 ms, then attempts a
zero-wait send of its constant tag to the back of the queue; it emits
`"Could not send to the queue.\r\n"` exactly when the queue is full, in which
case the queue is unchanged, and otherwise appends the tag. -/
theorem vSenderTask_iter_spec (tag : Int) (q : List Int) :
    ((Ev.putString sendFailMsg ∈ (senderIter tag q).1) ↔ queueCapacity ≤ q.length) ∧
    (q.length < queueCapacity →
      senderIter tag q =
        ([Ev.delayMs 50, Ev.sendToBack tag 0 true], q ++ [tag])) ∧
    (queueCapacity ≤ q.length →
      senderIter tag q =
        ([Ev.delayMs 50, Ev.sendToBack tag 0 false, Ev.putString sendFailMsg], q)) := by
  by_cases hlt : q.length < queueCapacity
  · simp [senderIter, xQueueSendToBack, hlt]
  · simp [senderIter, xQueueSendToBack, hlt]
    omega

/-- Witness for the C2 theorem: a send of 200 against a full queue fails,
emits the diagnostic, and leaves the queue unchanged. -/
theorem vSenderTask_iter_spec_witness :
    queueCapacity ≤ ([100, 200, 100, 200, 100] : List Int).length ∧
    senderIter 200 [100, 200, 100, 200, 100] =
      ([Ev.delayMs 50, Ev.sendToBack 200 0 false, Ev.putString sendFailMsg],
        [100, 200, 100, 200, 100]) :=
  ⟨by decide, (vSenderTask_iter_spec 200 [100, 200, 100, 200, 100]).2.2 (by decide)⟩

/-- C6: `main` creates exactly two producer tasks, bound at creation to the
constant tags 100 and 200 at priority 1, and one consumer task at priority 2;
and across any number of iterations a producer only ever sends its creation
tag (the tag is a constant parameter of the loop, hence immutable). -/
theorem task_creation_and_tags :
    ((mainTrace true).filter isTaskCreate =
      [MainEv.taskCreate "Sender1" (some 100) 1,
       MainEv.taskCreate "Sender2" (some 200) 1,
       MainEv.taskCreate "Receiver" none 2]) ∧
    (∀ (tag : Int) (n : Nat) (q : List Int) (v : Int) (w : Nat) (s : Bool),
      Ev.sendToBack v w s ∈ (senderRun tag n q).1 → v = tag) :=
  ⟨by decide, fun tag => senderRun_sends tag⟩

/-- Witness for the C6 theorem: the first sender's one-iteration run sends
exactly its creation tag 100. -/
theorem task_creation_and_tags_witness :
    Ev.sendToBack 100 0 true ∈ (senderRun 100 1 []).1 ∧ (100 : Int) = 100 :=
  ⟨by decide, task_creation_and_tags.2 100 1 [] 100 0 true (by decide)⟩

/-- C7: under every interleaving of the two producers and the consumer against
the queue, the occupancy stays within 0 and the capacity 5. -/
theorem queue_occupancy_bounds (q : List Int) (h : ReachableQ q) :
    0 ≤ (q.length : Int) ∧ q.length ≤ queueCapacity := by
  induction h with
  | init => simp [queueCapacity]
  | step _ hs ih =>
    refine ⟨Int.natCast_nonneg _, ?_⟩
    cases hs with
    | send1 => exact senderIter_queue_length 100 _ ih.2
    | send2 => exact senderIter_queue_length 200 _ ih.2
    | recv => exact receiverIter_queue_length _ _ ih.2

/-- Witness for the C7 theorem at the initial (reachable, empty) queue. -/
theorem queue_occupancy_bounds_witness :
    ReachableQ [] ∧
    (0 ≤ ((([] : List Int)).length : Int) ∧ ([] : List Int).length ≤ queueCapacity) :=
  ⟨ReachableQ.init, queue_occupancy_bounds [] ReachableQ.init⟩

/-- C9: the consumer's creation priority 2 is strictly above both producers'
priority 1, so whenever the queue becoming non-empty makes the consumer ready,
the fixed-priority scheduler selects the consumer, never a producer; the
priorities used are exactly the ones `main` passes at task creation. -/
theorem receiver_priority_scheduling :
    (∀ ready : List TaskId, TaskId.receiver ∈ ready →
      pickHighest ready = some TaskId.receiver) ∧
    (∀ t : TaskId, t ≠ TaskId.receiver →
      taskPriority t < taskPriority TaskId.receiver) ∧
    ((mainTrace true).filter isTaskCreate =
      [MainEv.taskCreate "Sender1" (some 100) (taskPriority TaskId.sender1),
       MainEv.taskCreate "Sender2" (some 200) (taskPriority TaskId.sender2),
       MainEv.taskCreate "Receiver" none (taskPriority TaskId.receiver)]) := by
  refine ⟨fun ready h => pickHighest_receiver_mem ready none (Or.inl h), ?_, by decide⟩
  intro t ht
  cases t
  · decide
  · decide
  · exact absurd rfl ht

/-- Witness for the C9 theorem: with the consumer ready between the two
producers, the scheduler picks the consumer. -/
theorem receiver_priority_scheduling_witness :
    TaskId.receiver ∈ [TaskId.sender1, TaskId.receiver, TaskId.sender2] ∧
    pickHighest [TaskId.sender1, TaskId.receiver, TaskId.sender2] =
      some TaskId.receiver :=
  ⟨by decide, receiver_priority_scheduling.1 _ (by decide)⟩

/-- C10: for every received value whose decimal representation has at least
three digits — including the two values actually sent, 100 and 200 — the
`sprintf` at `main.c:189` stores at least 17 characters plus the terminating
NUL, 18 bytes, which exceeds the 16-byte local buffer `str`. -/
theorem received_sprintf_overflow :
    (∀ v : Int, 3 ≤ (intDecStrL v).length →
      18 ≤ sprintfBytesWritten v ∧ strBufSize < sprintfBytesWritten v) ∧
    3 ≤ (intDecStrL 100).length ∧ 3 ≤ (intDecStrL 200).length := by
  refine ⟨?_, by decide, by decide⟩
  intro v _
  have h4 : 4 ≤ (fmtSpace4L v).length := by
    unfold fmtSpace4L padLeftL
    simp only [List.length_append, List.length_replicate]
    omega
  have h11 : ("Received = ").data.length = 11 := rfl
  have h2 : ("\r\n").data.length = 2 := rfl
  unfold sprintfBytesWritten receivedLineL strBufSize
  simp only [List.length_append, h11, h2]
  omega

/-- Witness for the C10 theorem at the concrete value 100: the 18 bytes
written exceed the 16-byte buffer. -/
theorem received_sprintf_overflow_witness :
    3 ≤ (intDecStrL 100).length ∧
    (18 ≤ sprintfBytesWritten 100 ∧ strBufSize < sprintfBytesWritten 100) :=
  ⟨by decide, received_sprintf_overflow.1 100 (by decide)⟩

end MIC5
